import Mathlib

set_option autoImplicit false

/-!
Shallow embedding of src/main.py (rust-sig-gen): a pipeline that fetches the
top crates from a registry, builds each as a static library for two targets,
and runs external FLAIR tools (pelf/pcf/sigmake) to produce pattern (.pat)
and signature (.sig) files.

External effects (subprocess results, filesystem queries, HTTP responses) are
modelled by explicit environment records; each Python function becomes a pure
Lean function over such an environment.
-/

namespace RustSigGen

/-- Exceptions that the Python code can raise or catch:
subprocess.CalledProcessError, FileNotFoundError (with identifying payload),
and HTTP errors from requests (raise_for_status). -/
inductive PyExc where
  | calledProcessError : PyExc
  | fileNotFound : String → PyExc
  | httpError : PyExc
deriving DecidableEq, Repr

/-- Python str.endswith: the suffix test used by find_static_lib and
generate_pat (src/main.py lines 119, 136, 141). -/
def pyEndsWith (s suf : String) : Bool :=
  List.isSuffixOf suf.data s.data

/-- Python str.startswith: used for comment lines in the exclusion-file
cleanup (src/main.py line 195). -/
def pyStartsWith (s pre : String) : Bool :=
  List.isPrefixOf pre.data s.data

/-- Characters removed by Python str.strip() with no argument. -/
def pyIsSpace (c : Char) : Bool :=
  c = ' ' || c = '\t' || c = '\n' || c = '\r' || c = '\x0b' || c = '\x0c'

/-- Python `line.strip()` is falsy exactly when every character of the line
is whitespace (src/main.py line 195). -/
def pyStripEmpty (l : String) : Bool :=
  l.data.all pyIsSpace

/-- The extension test of find_static_lib (src/main.py line 119):
file.endswith((".a", ".lib")). -/
def isStaticLibFile (f : String) : Bool :=
  pyEndsWith f ".a" || pyEndsWith f ".lib"

/-- find_static_lib (src/main.py lines 115-121). The directory is modelled as
`none` when os.path.isdir fails, and `some files` for the os.listdir listing.
The loop returns os.path.join(target_dir, file) for the first match. -/
def find_static_lib (listing : Option (List String)) (target_dir : String) : Option String :=
  match listing with
  | none => none
  | some files =>
    match files.find? isStaticLibFile with
    | some f => some (target_dir ++ "/" ++ f)
    | none => none

/-- Environment for one run of build_as_staticlib: outcomes of the two
`cargo build` subprocesses, the listings of the two release directories at the
time find_static_lib scans them, and the crate directory path. -/
structure BuildEnv where
  hostBuildOk : Bool
  crossBuildOk : Bool
  hostLibDir : Option (List String)
  crossLibDir : Option (List String)
  crateDir : String

/-- Trace of the try-block of build_as_staticlib (src/main.py lines 86-113):
the accumulated built_libs, whether the second (cross-target) cargo
invocation was reached, and the exception caught by the except-clause, if
any. The cross-target build is only reached when the host build did not
raise, because a single try-block wraps both builds. -/
structure BuildRun where
  libs : List String
  crossAttempted : Bool
  exc : Option PyExc

/-- Body of build_as_staticlib (src/main.py lines 84-113) as a step trace.
A CalledProcessError from either cargo invocation jumps to the except-clause
with built_libs as accumulated so far. -/
def build_run (env : BuildEnv) : BuildRun :=
  if env.hostBuildOk = false then
    { libs := [], crossAttempted := false, exc := some .calledProcessError }
  else
    let hostLibs :=
      match find_static_lib env.hostLibDir (env.crateDir ++ "/target/release") with
      | some l => [l]
      | none => []
    if env.crossBuildOk = false then
      { libs := hostLibs, crossAttempted := true, exc := some .calledProcessError }
    else
      let libs :=
        match find_static_lib env.crossLibDir
            (env.crateDir ++ "/target/x86_64-pc-windows-msvc/release") with
        | some l => hostLibs ++ [l]
        | none => hostLibs
      { libs := libs, crossAttempted := true, exc := none }

/-- build_as_staticlib's return value (src/main.py line 113): the caught
exception is logged and discarded, and whatever was built so far is
returned. -/
def build_as_staticlib (env : BuildEnv) : List String :=
  (build_run env).libs

/-- A concrete run where the host-target build fails while the cross-target
build would succeed and produce an artifact. -/
def c1Env : BuildEnv :=
  { hostBuildOk := false
    crossBuildOk := true
    hostLibDir := some []
    crossLibDir := some ["w.lib"]
    crateDir := "crates/w-1.0.0" }

/-- Claim C1 counterexample: when the first (host) cargo build fails, the
code does not continue to the next target: the cross-target build — here
configured to succeed and produce an artifact — is never attempted, and the
returned list is empty. This falsifies "processing continues to the next
target with whatever succeeded so far". -/
theorem c1_counterexample :
    (build_run c1Env).exc = some PyExc.calledProcessError ∧
    c1Env.crossBuildOk = true ∧
    c1Env.crossLibDir = some ["w.lib"] ∧
    (build_run c1Env).crossAttempted = false ∧
    build_as_staticlib c1Env = [] :=
  ⟨rfl, rfl, rfl, rfl, rfl⟩

/-- Claim C1 (amended): a build-tool failure on either target is caught and
never raised to the caller, but a failure on the first (host) target also
skips the second (cross) target, because one try-block wraps both builds.
The returned list holds, in order, the artifacts found for the builds that
actually ran and succeeded; its length is 0, 1, or 2, and it is empty
whenever the host build fails. -/
theorem build_as_staticlib_error_handling (env : BuildEnv) :
    (build_as_staticlib env).length ≤ 2 ∧
    ((build_run env).crossAttempted = env.hostBuildOk) ∧
    (env.hostBuildOk = false →
      build_as_staticlib env = [] ∧
      (build_run env).exc = some PyExc.calledProcessError) ∧
    (env.hostBuildOk = true → env.crossBuildOk = false →
      build_as_staticlib env =
        (find_static_lib env.hostLibDir (env.crateDir ++ "/target/release")).toList ∧
      (build_run env).exc = some PyExc.calledProcessError) ∧
    (env.hostBuildOk = true → env.crossBuildOk = true →
      build_as_staticlib env =
        (find_static_lib env.hostLibDir (env.crateDir ++ "/target/release")).toList ++
        (find_static_lib env.crossLibDir
          (env.crateDir ++ "/target/x86_64-pc-windows-msvc/release")).toList ∧
      (build_run env).exc = none) := by
  unfold build_as_staticlib build_run
  rcases env with ⟨hb, cb, hd, cd, dir⟩
  cases hb <;> cases cb <;>
    cases h1 : find_static_lib hd (dir ++ "/target/release") <;>
    cases h2 : find_static_lib cd (dir ++ "/target/x86_64-pc-windows-msvc/release") <;>
    simp [h1, h2]

/-- Claim C1 amended, instantiated: at the counterexample environment the
amended description holds (empty result, cross target not attempted). -/
theorem build_as_staticlib_error_handling_witness :
    build_as_staticlib c1Env = [] ∧
    (build_run c1Env).exc = some PyExc.calledProcessError :=
  (build_as_staticlib_error_handling c1Env).2.2.1 rfl

/-- Claim C9 counterexample: in the host release directory (scanned for the
host target, where the claim expects only a ".a"-style match) a lone ".lib"
file is returned by find_static_lib, since the code tests the single
extension set (".a", ".lib") for every directory. -/
theorem c9_counterexample :
    find_static_lib (some ["stale.lib"]) "crates/foo-1.0.0/target/release" =
      some "crates/foo-1.0.0/target/release/stale.lib" ∧
    pyEndsWith "stale.lib" ".a" = false := by
  constructor
  · rfl
  · rfl

/-- Claim C9 (amended): find_static_lib returns no artifact when the
directory does not exist or no file matches, and otherwise returns the first
listed file whose name ends in ".a" or ".lib" — the same extension set for
every directory, with no per-target restriction and no disambiguation among
multiple candidates. -/
theorem find_static_lib_first_match (p : String) :
    (find_static_lib none p = none) ∧
    (∀ files, (∀ f ∈ files, isStaticLibFile f = false) →
      find_static_lib (some files) p = none) ∧
    (∀ pre f rest, (∀ g ∈ pre, isStaticLibFile g = false) →
      isStaticLibFile f = true →
      find_static_lib (some (pre ++ f :: rest)) p = some (p ++ "/" ++ f)) := by
  refine ⟨rfl, ?_, ?_⟩
  · intro files hnone
    have : files.find? isStaticLibFile = none := List.find?_eq_none.mpr (by
      intro x hx
      simp [hnone x hx])
    simp [find_static_lib, this]
  · intro pre f rest hpre hf
    induction pre with
    | nil => simp [find_static_lib, List.find?, hf]
    | cons g gs ih =>
      have hg : isStaticLibFile g = false := hpre g (by simp)
      have hgs : ∀ x ∈ gs, isStaticLibFile x = false := by
        intro x hx
        exact hpre x (by simp [hx])
      have := ih hgs
      simpa [find_static_lib, List.find?, hg] using this

/-- Claim C9 amended, instantiated at a two-candidate listing: the first
matching file wins. -/
theorem find_static_lib_first_match_witness :
    find_static_lib (some ["README.md", "liba.a", "libb.a"]) "t" = some "t/liba.a" :=
  (find_static_lib_first_match "t").2.2 ["README.md"] "liba.a" ["libb.a"]
    (by intro g hg; simp at hg; subst hg; rfl) rfl

/-- The per_page constant of get_top_crates (src/main.py line 21). -/
def per_page : Nat := 100

/-- The registry's paginated listing, modelled consistently: the registry
holds one global list of crate identifiers sorted by all-time downloads, and
page `p` (1-based) returns its `p`-th chunk of per_page entries
(src/main.py lines 24-34: the JSON response's crates array mapped to ids). -/
def registryPage (all : List String) (page : Nat) : List String :=
  (all.drop ((page - 1) * per_page)).take per_page

/-- The while-loop of get_top_crates (src/main.py lines 23-40): accumulate
pages while fewer than n identifiers are collected, breaking on a short page
or once n are reached. -/
def get_top_crates_loop (all : List String) (n : Nat) (page : Nat)
    (crates : List String) : List String :=
  if h : crates.length < n then
    let page_crates := registryPage all page
    let crates2 := crates ++ page_crates
    if h2 : page_crates.length < per_page ∨ n ≤ crates2.length then crates2
    else get_top_crates_loop all n (page + 1) crates2
  else crates
termination_by n - crates.length
decreasing_by
  push_neg at h2
  have hpp : 0 < per_page := by decide
  simp only [page_crates, crates2, List.length_append] at h2 ⊢
  omega

/-- get_top_crates (src/main.py lines 17-42): run the pagination loop from
page 1 with an empty accumulator, then trim to exactly n. -/
def get_top_crates (all : List String) (n : Nat) : List String :=
  (get_top_crates_loop all n 1 []).take n

/-- Loop invariant: started on a page boundary, the pagination loop returns a
prefix (take k) of the registry list with either at least n elements taken or
the whole registry consumed. -/
theorem get_top_crates_loop_take (all : List String) (n : Nat) :
    ∀ page crates, 1 ≤ page → crates = all.take ((page - 1) * per_page) →
    (page - 1) * per_page ≤ all.length →
    ∃ k, get_top_crates_loop all n page crates = all.take k ∧
      (n ≤ k ∨ all.length ≤ k) := by
  intro page crates hpage hcr hle
  induction page, crates using get_top_crates_loop.induct all n with
  | case1 page crates hlt page_crates crates2 h2 =>
    simp only [page_crates, crates2] at h2
    refine ⟨(page - 1) * per_page + per_page, ?_, ?_⟩
    · rw [get_top_crates_loop]
      rw [dif_pos hlt]
      simp only [dif_pos h2]
      simp only [registryPage, hcr]
      rw [← List.take_add]
    · have hplen : page_crates.length = min per_page (all.length - (page - 1) * per_page) := by
        simp [page_crates, registryPage]
      have hlen2 : crates2.length = crates.length + page_crates.length := by
        simp [crates2]
      have hcl : crates.length = min ((page - 1) * per_page) all.length := by
        simp [hcr]
      simp only [page_crates, registryPage] at hplen
      simp only [crates2, page_crates] at hlen2
      rcases h2 with h2 | h2
      · right
        simp only [registryPage] at h2
        omega
      · left
        simp only [registryPage, List.length_append] at h2
        omega
  | case2 page crates hlt page_crates crates2 h2 ih =>
    simp only [page_crates, crates2] at h2
    push_neg at h2
    have hplen : (registryPage all page).length =
        min per_page (all.length - (page - 1) * per_page) := by
      simp [registryPage]
    have hfull : (registryPage all page).length = per_page := by
      rcases h2 with ⟨h2a, _⟩
      omega
    have hnext : (page + 1 - 1) * per_page = (page - 1) * per_page + per_page := by
      cases page with
      | zero => omega
      | succ q => simp [Nat.succ_sub_one, Nat.succ_mul]
    have hle2 : (page + 1 - 1) * per_page ≤ all.length := by
      rw [hnext]
      have := List.length_append crates (registryPage all page)
      omega
    have hcr2 : crates ++ registryPage all page = all.take ((page + 1 - 1) * per_page) := by
      rw [hnext, hcr]
      simp only [registryPage]
      rw [← List.take_add]
    obtain ⟨k, hk, hnk⟩ := ih (by omega) hcr2 hle2
    refine ⟨k, ?_, hnk⟩
    rw [get_top_crates_loop]
    rw [dif_pos hlt]
    rw [dif_neg (by push_neg; exact h2)]
    exact hk
  | case3 page crates hge =>
    refine ⟨(page - 1) * per_page, ?_, ?_⟩
    · rw [get_top_crates_loop]
      rw [dif_neg hge]
      exact hcr
    · left
      have hcl : crates.length = min ((page - 1) * per_page) all.length := by
        simp [hcr]
      omega

/-- Claim C3: get_top_crates returns exactly the first n identifiers of the
registry's global download-ranked list — hence exactly min(n, total)
identifiers, duplicate-free whenever the registry ranking is, and in the
registry-supplied descending order (a literal prefix of it); the loop stops
once at least n are collected or a short page ends the data. -/
theorem get_top_crates_correct (all : List String) (n : Nat) :
    get_top_crates all n = all.take n ∧
    (get_top_crates all n).length = min n all.length ∧
    (all.Nodup → (get_top_crates all n).Nodup) := by
  have hmain : get_top_crates all n = all.take n := by
    obtain ⟨k, hk, hnk⟩ := get_top_crates_loop_take all n 1 [] le_rfl (by simp) (by simp)
    rw [get_top_crates, hk, List.take_take]
    rcases hnk with h | h
    · rw [Nat.min_eq_left h]
    · rcases Nat.le_total n k with h2 | h2
      · rw [Nat.min_eq_left h2]
      · rw [Nat.min_eq_right h2, List.take_of_length_le h,
            List.take_of_length_le (le_trans h h2)]
  refine ⟨hmain, ?_, ?_⟩
  · rw [hmain, List.length_take]
  · intro hnd
    rw [hmain]
    exact hnd.sublist (List.take_sublist n all)

/-- Claim C3 instantiated: a registry of three identifiers and n = 2. -/
theorem get_top_crates_correct_witness :
    get_top_crates ["serde", "rand", "syn"] 2 = ["serde", "rand"] ∧
    (get_top_crates ["serde", "rand", "syn"] 2).Nodup := by
  have h := get_top_crates_correct ["serde", "rand", "syn"] 2
  exact ⟨h.1, h.2.2 (by decide)⟩

/-- A TOML value as produced by toml.load: strings, booleans, integers,
arrays, and tables. Tables keep Python-dict insertion order as association
lists (toml rejects duplicate keys, so keys are unique in practice). -/
inductive TomlVal where
  | vStr : String → TomlVal
  | vBool : Bool → TomlVal
  | vInt : Int → TomlVal
  | vArr : List TomlVal → TomlVal
  | vTable : List (String × TomlVal) → TomlVal

/-- Python dict lookup (d[k] / k in d): first binding of the key. -/
def dictLookup : List (String × TomlVal) → String → Option TomlVal
  | [], _ => none
  | (k, v) :: rest, key => if k = key then some v else dictLookup rest key

/-- Python dict assignment d[k] = v: replace the value in place when the key
is present, else append the new binding at the end. -/
def dictInsert : List (String × TomlVal) → String → TomlVal → List (String × TomlVal)
  | [], key, val => [(key, val)]
  | (k, v) :: rest, key, val =>
    if k = key then (k, val) :: rest else (k, v) :: dictInsert rest key val

/-- The dict produced by Python's d.setdefault(k, dflt): unchanged when the
key is present, else the default binding appended. -/
def dictSetdefaultD (d : List (String × TomlVal)) (key : String) (dflt : TomlVal) :
    List (String × TomlVal) :=
  match dictLookup d key with
  | some _ => d
  | none => d ++ [(key, dflt)]

/-- The value returned by Python's d.setdefault(k, dflt). -/
def dictGetD (d : List (String × TomlVal)) (key : String) (dflt : TomlVal) : TomlVal :=
  (dictLookup d key).getD dflt

/-- View a TOML value as a table; non-tables yield none (subscript assignment
or .setdefault on such a value raises a TypeError/AttributeError in Python). -/
def asTable : TomlVal → Option (List (String × TomlVal))
  | .vTable t => some t
  | _ => none

theorem dictLookup_dictInsert_self (d : List (String × TomlVal)) (k : String) (v : TomlVal) :
    dictLookup (dictInsert d k v) k = some v := by
  induction d with
  | nil => simp [dictInsert, dictLookup]
  | cons p rest ih =>
    obtain ⟨k0, v0⟩ := p
    by_cases h : k0 = k
    · simp [dictInsert, dictLookup, h]
    · simp [dictInsert, dictLookup, h, ih]

theorem dictLookup_dictInsert_ne (d : List (String × TomlVal)) (k k' : String) (v : TomlVal)
    (h : k' ≠ k) : dictLookup (dictInsert d k v) k' = dictLookup d k' := by
  induction d with
  | nil => simp [dictInsert, dictLookup, Ne.symm h]
  | cons p rest ih =>
    obtain ⟨k0, v0⟩ := p
    by_cases h0 : k0 = k
    · subst h0
      simp [dictInsert, dictLookup, Ne.symm h]
    · simp [dictInsert, dictLookup, h0, ih]

theorem dictLookup_append_right (d tail : List (String × TomlVal)) (k' : String)
    (h : dictLookup d k' = none) : dictLookup (d ++ tail) k' = dictLookup tail k' := by
  induction d with
  | nil => simp
  | cons p rest ih =>
    obtain ⟨k0, v0⟩ := p
    by_cases h0 : k0 = k'
    · simp [dictLookup, h0] at h
    · simp [dictLookup, h0] at h ⊢
      exact ih h

theorem dictLookup_append_left (d tail : List (String × TomlVal)) (k' : String) (v : TomlVal)
    (h : dictLookup d k' = some v) : dictLookup (d ++ tail) k' = some v := by
  induction d with
  | nil => simp [dictLookup] at h
  | cons p rest ih =>
    obtain ⟨k0, v0⟩ := p
    by_cases h0 : k0 = k'
    · simp [dictLookup, h0] at h ⊢
      exact h
    · simp [dictLookup, h0] at h ⊢
      exact ih h

theorem dictInsert_of_lookup_eq (d : List (String × TomlVal)) (k : String) (v : TomlVal)
    (h : dictLookup d k = some v) : dictInsert d k v = d := by
  induction d with
  | nil => simp [dictLookup] at h
  | cons p rest ih =>
    obtain ⟨k0, v0⟩ := p
    by_cases h0 : k0 = k
    · subst h0
      simp [dictLookup] at h
      simp [dictInsert, h]
    · simp [dictLookup, h0] at h
      simp [dictInsert, h0, ih h]

theorem dictLookup_setdefaultD_self (d : List (String × TomlVal)) (k : String) (dflt : TomlVal) :
    dictLookup (dictSetdefaultD d k dflt) k = some (dictGetD d k dflt) := by
  unfold dictSetdefaultD dictGetD
  cases h : dictLookup d k with
  | some v => simp [h]
  | none =>
    simp only [h, Option.getD_none]
    rw [dictLookup_append_right d _ k h]
    simp [dictLookup]

theorem dictLookup_setdefaultD_ne (d : List (String × TomlVal)) (k k' : String) (dflt : TomlVal)
    (h : k' ≠ k) : dictLookup (dictSetdefaultD d k dflt) k' = dictLookup d k' := by
  unfold dictSetdefaultD
  cases hk : dictLookup d k with
  | some v => rfl
  | none =>
    cases hk' : dictLookup d k' with
    | some v => exact dictLookup_append_left d _ k' v hk'
    | none =>
      rw [dictLookup_append_right d _ k' hk']
      simp [dictLookup, Ne.symm h]

theorem dictSetdefaultD_of_lookup (d : List (String × TomlVal)) (k : String)
    (dflt v : TomlVal) (h : dictLookup d k = some v) : dictSetdefaultD d k dflt = d := by
  unfold dictSetdefaultD
  rw [h]

/-- The manifest patch of build_as_staticlib (src/main.py lines 70-82), as
the pure transform on the parsed manifest:
cargo_data.setdefault("lib", \x7b\x7d)["crate-type"] = ["staticlib"], then
release = cargo_data.setdefault("profile", \x7b\x7d).setdefault("release", \x7b\x7d)
and release["panic"] = "abort" only when "panic" is absent. A non-table value
already stored at "lib", "profile", or "profile"."release" makes the Python
statements raise, modelled as none. -/
def patch_manifest (m : List (String × TomlVal)) : Option (List (String × TomlVal)) :=
  match asTable (dictGetD m "lib" (.vTable [])) with
  | none => none
  | some libT =>
    match asTable (dictGetD (dictInsert (dictSetdefaultD m "lib" (.vTable [])) "lib"
        (.vTable (dictInsert libT "crate-type" (.vArr [.vStr "staticlib"]))))
        "profile" (.vTable [])) with
    | none => none
    | some profT =>
      match asTable (dictGetD profT "release" (.vTable [])) with
      | none => none
      | some relT =>
        some (dictInsert
          (dictSetdefaultD (dictInsert (dictSetdefaultD m "lib" (.vTable [])) "lib"
            (.vTable (dictInsert libT "crate-type" (.vArr [.vStr "staticlib"]))))
            "profile" (.vTable []))
          "profile"
          (.vTable (dictInsert (dictSetdefaultD profT "release" (.vTable [])) "release"
            (.vTable (if (dictLookup relT "panic").isSome then relT
              else dictInsert relT "panic" (.vStr "abort"))))))

/-- Fields of a sub-table of the manifest: m[k1][k2] when m[k1] is a table,
none otherwise. -/
def subField (m : List (String × TomlVal)) (k1 k2 : String) : Option TomlVal :=
  match dictLookup m k1 with
  | some (.vTable t) => dictLookup t k2
  | _ => none

/-- Fields of the release profile table of the original manifest:
m["profile"]["release"][k] when both levels are tables, none otherwise. -/
def relField (m : List (String × TomlVal)) (k : String) : Option TomlVal :=
  match subField m "profile" "release" with
  | some (.vTable r) => dictLookup r k
  | _ => none

theorem asTable_getD_table (d : List (String × TomlVal)) (k : String)
    (t : List (String × TomlVal))
    (h : asTable (dictGetD d k (.vTable [])) = some t) :
    dictLookup d k = some (.vTable t) ∨ (dictLookup d k = none ∧ t = []) := by
  unfold dictGetD at h
  cases hl : dictLookup d k with
  | none =>
    rw [hl] at h
    simp [asTable] at h
    exact Or.inr ⟨rfl, h⟩
  | some v =>
    rw [hl] at h
    cases v <;> simp [asTable] at h
    exact Or.inl (by rw [h])

/-- Claim C4: the manifest patch is idempotent: whenever it maps a parsed
manifest m to m2, it also maps m2 to m2, so applying it twice equals applying
it once. -/
theorem patch_manifest_idempotent (m m2 : List (String × TomlVal))
    (h : patch_manifest m = some m2) : patch_manifest m2 = some m2 := by
  unfold patch_manifest at h
  split at h
  · exact Option.noConfusion h
  · next libT hlib =>
    split at h
    · exact Option.noConfusion h
    · next profT hprof =>
      split at h
      · exact Option.noConfusion h
      · next relT hrel =>
        obtain rfl := Option.some.inj h
        set lib1 := dictInsert libT "crate-type" (TomlVal.vArr [TomlVal.vStr "staticlib"])
          with hlib1
        set relT2 := if (dictLookup relT "panic").isSome then relT
          else dictInsert relT "panic" (TomlVal.vStr "abort") with hrelT2
        set profT2 := dictInsert (dictSetdefaultD profT "release" (TomlVal.vTable []))
          "release" (TomlVal.vTable relT2) with hprofT2
        set m1 := dictInsert (dictSetdefaultD m "lib" (TomlVal.vTable [])) "lib"
          (TomlVal.vTable lib1) with hm1
        set M := dictInsert (dictSetdefaultD m1 "profile" (TomlVal.vTable []))
          "profile" (TomlVal.vTable profT2) with hM
        have hL1 : dictLookup m1 "lib" = some (TomlVal.vTable lib1) := by
          rw [hm1]
          exact dictLookup_dictInsert_self _ _ _
        have hLM : dictLookup M "lib" = some (TomlVal.vTable lib1) := by
          rw [hM]
          rw [dictLookup_dictInsert_ne _ _ _ _ (by decide)]
          rw [dictLookup_setdefaultD_ne _ _ _ _ (by decide)]
          exact hL1
        have hPM : dictLookup M "profile" = some (TomlVal.vTable profT2) := by
          rw [hM]
          exact dictLookup_dictInsert_self _ _ _
        have hRM : dictLookup profT2 "release" = some (TomlVal.vTable relT2) := by
          rw [hprofT2]
          exact dictLookup_dictInsert_self _ _ _
        have e1 : asTable (dictGetD M "lib" (TomlVal.vTable [])) = some lib1 := by
          unfold dictGetD
          rw [hLM]
          rfl
        have e4 : dictInsert lib1 "crate-type" (TomlVal.vArr [TomlVal.vStr "staticlib"])
            = lib1 := by
          rw [hlib1]
          exact dictInsert_of_lookup_eq _ _ _ (dictLookup_dictInsert_self _ _ _)
        have e5 : dictSetdefaultD M "lib" (TomlVal.vTable []) = M :=
          dictSetdefaultD_of_lookup _ _ _ _ hLM
        have e6 : dictInsert M "lib" (TomlVal.vTable lib1) = M :=
          dictInsert_of_lookup_eq _ _ _ hLM
        have e8 : asTable (dictGetD M "profile" (TomlVal.vTable [])) = some profT2 := by
          unfold dictGetD
          rw [hPM]
          rfl
        have e10 : asTable (dictGetD profT2 "release" (TomlVal.vTable [])) = some relT2 := by
          unfold dictGetD
          rw [hRM]
          rfl
        have e11 : (dictLookup relT2 "panic").isSome = true := by
          rw [hrelT2]
          by_cases hpan : (dictLookup relT "panic").isSome = true
          · simp [hpan]
          · simp [hpan, dictLookup_dictInsert_self]
        have e12 : (if (dictLookup relT2 "panic").isSome then relT2
            else dictInsert relT2 "panic" (TomlVal.vStr "abort")) = relT2 := by
          simp [e11]
        have e13a : dictSetdefaultD profT2 "release" (TomlVal.vTable []) = profT2 :=
          dictSetdefaultD_of_lookup _ _ _ _ hRM
        have e13b : dictInsert profT2 "release" (TomlVal.vTable relT2) = profT2 :=
          dictInsert_of_lookup_eq _ _ _ hRM
        have e14a : dictSetdefaultD M "profile" (TomlVal.vTable []) = M :=
          dictSetdefaultD_of_lookup _ _ _ _ hPM
        have e14b : dictInsert M "profile" (TomlVal.vTable profT2) = M :=
          dictInsert_of_lookup_eq _ _ _ hPM
        unfold patch_manifest
        simp only [e1, e4, e5, e6, e8, e10, e12, e13a, e13b, e14a, e14b]


/-- Result of patching the empty manifest. -/
def patchEmptyResult : List (String × TomlVal) :=
  [("lib", .vTable [("crate-type", .vArr [.vStr "staticlib"])]),
   ("profile", .vTable [("release", .vTable [("panic", .vStr "abort")])])]

/-- Claim C4 instantiated: patching the empty manifest once and then again
yields the same manifest. -/
theorem patch_manifest_idempotent_witness :
    patch_manifest [] = some patchEmptyResult ∧
    patch_manifest patchEmptyResult = some patchEmptyResult :=
  ⟨rfl, patch_manifest_idempotent [] patchEmptyResult rfl⟩

/-- Claim C5: the patch touches only lib.crate-type (always overwritten to
["staticlib"]) and profile.release.panic (kept when present, set to "abort"
when absent); every other top-level field, every other lib field, every
other profile field and every other release field keeps its original
value. -/
theorem patch_manifest_frame (m m2 : List (String × TomlVal))
    (h : patch_manifest m = some m2) :
    (∀ k, k ≠ "lib" → k ≠ "profile" → dictLookup m2 k = dictLookup m k) ∧
    (∃ libT2, dictLookup m2 "lib" = some (.vTable libT2) ∧
      dictLookup libT2 "crate-type" = some (.vArr [.vStr "staticlib"]) ∧
      ∀ k, k ≠ "crate-type" → dictLookup libT2 k = subField m "lib" k) ∧
    (∃ profT2 relT2, dictLookup m2 "profile" = some (.vTable profT2) ∧
      dictLookup profT2 "release" = some (.vTable relT2) ∧
      (∀ k, k ≠ "release" → dictLookup profT2 k = subField m "profile" k) ∧
      (∀ k, k ≠ "panic" → dictLookup relT2 k = relField m k) ∧
      dictLookup relT2 "panic" = some ((relField m "panic").getD (.vStr "abort"))) := by
  unfold patch_manifest at h
  split at h
  · exact Option.noConfusion h
  · next libT hlib =>
    split at h
    · exact Option.noConfusion h
    · next profT hprof =>
      split at h
      · exact Option.noConfusion h
      · next relT hrel =>
        obtain rfl := Option.some.inj h
        set lib1 := dictInsert libT "crate-type" (TomlVal.vArr [TomlVal.vStr "staticlib"])
          with hlib1
        set relT2 := if (dictLookup relT "panic").isSome then relT
          else dictInsert relT "panic" (TomlVal.vStr "abort") with hrelT2
        set profT2 := dictInsert (dictSetdefaultD profT "release" (TomlVal.vTable []))
          "release" (TomlVal.vTable relT2) with hprofT2
        set m1 := dictInsert (dictSetdefaultD m "lib" (TomlVal.vTable [])) "lib"
          (TomlVal.vTable lib1) with hm1
        set M := dictInsert (dictSetdefaultD m1 "profile" (TomlVal.vTable []))
          "profile" (TomlVal.vTable profT2) with hM
        have hL1 : dictLookup m1 "lib" = some (TomlVal.vTable lib1) := by
          rw [hm1]
          exact dictLookup_dictInsert_self _ _ _
        have hLM : dictLookup M "lib" = some (TomlVal.vTable lib1) := by
          rw [hM]
          rw [dictLookup_dictInsert_ne _ _ _ _ (by decide)]
          rw [dictLookup_setdefaultD_ne _ _ _ _ (by decide)]
          exact hL1
        have hPM : dictLookup M "profile" = some (TomlVal.vTable profT2) := by
          rw [hM]
          exact dictLookup_dictInsert_self _ _ _
        have hRM : dictLookup profT2 "release" = some (TomlVal.vTable relT2) := by
          rw [hprofT2]
          exact dictLookup_dictInsert_self _ _ _
        have hpm : dictLookup m1 "profile" = dictLookup m "profile" := by
          rw [hm1, dictLookup_dictInsert_ne _ _ _ _ (by decide),
            dictLookup_setdefaultD_ne _ _ _ _ (by decide)]
        have hsublib : ∀ k', dictLookup libT k' = subField m "lib" k' := by
          intro k'
          rcases asTable_getD_table m "lib" libT hlib with hsome | ⟨hnone, hT⟩
          · simp [subField, hsome]
          · subst hT
            simp [subField, hnone, dictLookup]
        have hsubprof : ∀ k', dictLookup profT k' = subField m "profile" k' := by
          intro k'
          rcases asTable_getD_table m1 "profile" profT hprof with hsome | ⟨hnone, hT⟩
          · rw [hpm] at hsome
            simp [subField, hsome]
          · rw [hpm] at hnone
            subst hT
            simp [subField, hnone, dictLookup]
        have hsubrel : ∀ k', dictLookup relT k' = relField m k' := by
          intro k'
          have hpr : subField m "profile" "release" = dictLookup profT "release" :=
            (hsubprof "release").symm
          rcases asTable_getD_table profT "release" relT hrel with hrsome | ⟨hrnone, hrT⟩
          · simp [relField, hpr, hrsome]
          · subst hrT
            simp [relField, hpr, hrnone, dictLookup]
        refine ⟨?_, ⟨lib1, hLM, ?_, ?_⟩, ⟨profT2, relT2, hPM, hRM, ?_, ?_, ?_⟩⟩
        · intro k hk1 hk2
          rw [hM, dictLookup_dictInsert_ne _ _ _ _ hk2,
            dictLookup_setdefaultD_ne _ _ _ _ hk2, hm1,
            dictLookup_dictInsert_ne _ _ _ _ hk1,
            dictLookup_setdefaultD_ne _ _ _ _ hk1]
        · rw [hlib1]
          exact dictLookup_dictInsert_self _ _ _
        · intro k hk
          rw [hlib1, dictLookup_dictInsert_ne _ _ _ _ hk]
          exact hsublib k
        · intro k hk
          rw [hprofT2, dictLookup_dictInsert_ne _ _ _ _ hk,
            dictLookup_setdefaultD_ne _ _ _ _ hk]
          exact hsubprof k
        · intro k hk
          have lrel : dictLookup relT2 k = dictLookup relT k := by
            rw [hrelT2]
            by_cases hpan : (dictLookup relT "panic").isSome = true
            · simp [hpan]
            · simp [hpan, dictLookup_dictInsert_ne _ _ _ _ hk]
          rw [lrel]
          exact hsubrel k
        · rw [← hsubrel "panic", hrelT2]
          cases hpan : dictLookup relT "panic" with
          | some v => simp [hpan]
          | none => simp [hpan, dictLookup_dictInsert_self]

/-- An example manifest with extra fields at every level. -/
def frameExampleManifest : List (String × TomlVal) :=
  [("package", .vStr "serde"),
   ("lib", .vTable [("crate-type", .vArr [.vStr "rlib"]), ("name", .vStr "serde")]),
   ("profile", .vTable [("release", .vTable
     [("panic", .vStr "unwind"), ("lto", .vBool true)])])]

/-- The patch of frameExampleManifest: crate-type overwritten, panic kept. -/
def frameExamplePatched : List (String × TomlVal) :=
  [("package", .vStr "serde"),
   ("lib", .vTable [("crate-type", .vArr [.vStr "staticlib"]), ("name", .vStr "serde")]),
   ("profile", .vTable [("release", .vTable
     [("panic", .vStr "unwind"), ("lto", .vBool true)])])]

/-- Claim C5 instantiated: on a manifest with extra fields, the top-level
"package" field is preserved by the patch. -/
theorem patch_manifest_frame_witness :
    dictLookup frameExamplePatched "package" = dictLookup frameExampleManifest "package" :=
  (patch_manifest_frame frameExampleManifest frameExamplePatched rfl).1 "package"
    (by decide) (by decide)

/-- Python os.path.basename on POSIX paths: the characters after the last
'/' of the path. -/
def pyBasename (p : String) : String :=
  String.mk ((p.data.reverse.takeWhile (fun c => c ≠ '/')).reverse)

/-- Python s[:-n]: the string without its last n characters (empty when the
string is shorter than n). -/
def pyDropRightChars (s : String) (n : Nat) : String :=
  String.mk (s.data.take (s.data.length - n))

/-- The signature base name of generate_sig (src/main.py line 171):
os.path.basename(pat_path[:-4]). -/
def sig_base_name (pat : String) : String :=
  pyBasename (pyDropRightChars pat 4)

/-- The signature path of generate_sig (src/main.py line 172):
os.path.join(OUTPUT_DIR, base + ".sig") with OUTPUT_DIR = "output". -/
def sig_path_of (pat : String) : String :=
  "output/" ++ sig_base_name pat ++ ".sig"

/-- The in-place exclusion-file cleanup of generate_sig (src/main.py lines
191-196): re-read the lines, write back each line that strips to non-empty
and does not start with ";". -/
def cleanExcLines : List String → List String
  | [] => []
  | l :: ls =>
    if !(pyStripEmpty l) && !(pyStartsWith l ";") then l :: cleanExcLines ls
    else cleanExcLines ls

/-- Environment for one run of generate_sig: whether the sigmake binary
exists, the outcomes of the first and the retried sigmake invocation, the
lines of the .exc file when it exists after the first failure, whether the
.sig file exists on disk after the invocation(s), and the contents of the
.sig file — which the code never reads. -/
structure SigEnv where
  sigmakeExists : Bool
  firstCallOk : Bool
  excLines : Option (List String)
  secondCallOk : Bool
  sigExists : Bool
  sigContents : String

/-- Observable outcome of one run of generate_sig: the returned value or
propagated exception, the final state of the .exc file, and how many times
sigmake was invoked. -/
structure SigOutcome where
  result : Except PyExc (Option String)
  excFileLines : Option (List String)
  sigmakeCalls : Nat

/-- generate_sig (src/main.py lines 168-208). Missing sigmake raises before
any invocation; a first-call failure with an existing .exc file cleans it in
place and retries exactly once, a second failure propagating; a first-call
failure without an .exc file returns None; otherwise the sig path is
returned exactly when the .sig file exists on disk. -/
def generate_sig (pat : String) (env : SigEnv) : SigOutcome :=
  if env.sigmakeExists = false then
    { result := .error (.fileNotFound "sigmake"), excFileLines := env.excLines,
      sigmakeCalls := 0 }
  else if env.firstCallOk then
    { result := if env.sigExists then .ok (some (sig_path_of pat)) else .ok none,
      excFileLines := env.excLines, sigmakeCalls := 1 }
  else
    match env.excLines with
    | some lines =>
      if env.secondCallOk then
        { result := if env.sigExists then .ok (some (sig_path_of pat)) else .ok none,
          excFileLines := some (cleanExcLines lines), sigmakeCalls := 2 }
      else
        { result := .error .calledProcessError,
          excFileLines := some (cleanExcLines lines), sigmakeCalls := 2 }
    | none =>
      { result := .ok none, excFileLines := none, sigmakeCalls := 1 }

/-- Claim C2: sigmake is invoked at most twice per pattern file; after a
first failure with no .exc file, generate_sig returns None without retrying
and without raising; after a first failure with an .exc file it retries
exactly once (two invocations total), and a second failure propagates as an
exception. -/
theorem generate_sig_retry_policy (pat : String) (env : SigEnv) :
    (generate_sig pat env).sigmakeCalls ≤ 2 ∧
    (env.sigmakeExists = true → env.firstCallOk = false → env.excLines = none →
      (generate_sig pat env).result = .ok none ∧
      (generate_sig pat env).sigmakeCalls = 1) ∧
    (env.sigmakeExists = true → env.firstCallOk = false →
      ∀ ls, env.excLines = some ls →
      (generate_sig pat env).sigmakeCalls = 2 ∧
      (env.secondCallOk = false →
        (generate_sig pat env).result = .error PyExc.calledProcessError)) := by
  rcases env with ⟨smk, c1, exc, c2, sg, cont⟩
  cases smk <;> cases c1 <;> cases exc <;> cases c2 <;> cases sg <;>
    simp [generate_sig]

/-- Claim C2 instantiated: first call fails, an .exc file with one comment
line exists, and the retry fails: two invocations and a propagated
exception. -/
theorem generate_sig_retry_policy_witness :
    (generate_sig "output/serde_linux.pat"
      ⟨true, false, some ["; comment"], false, false, ""⟩).sigmakeCalls = 2 ∧
    (generate_sig "output/serde_linux.pat"
      ⟨true, false, some ["; comment"], false, false, ""⟩).result =
      .error PyExc.calledProcessError := by
  have h := (generate_sig_retry_policy "output/serde_linux.pat"
    ⟨true, false, some ["; comment"], false, false, ""⟩).2.2 rfl rfl
    ["; comment"] rfl
  exact ⟨h.1, h.2 rfl⟩

/-- Whether some sigmake invocation of this run returned success
(src/main.py line 185 or the retry at line 198). -/
def sigToolSucceeded (env : SigEnv) : Bool :=
  env.sigmakeExists && (env.firstCallOk || (env.excLines.isSome && env.secondCallOk))

/-- Claim C6: generate_sig returns the signature path exactly when some
invocation returned success and the .sig file exists on disk afterwards;
when an invocation succeeded but the file is absent it returns None; and the
result never depends on the signature file's contents, only on its
presence. -/
theorem generate_sig_result_iff (pat : String) (env : SigEnv) :
    ((generate_sig pat env).result = .ok (some (sig_path_of pat)) ↔
      (sigToolSucceeded env = true ∧ env.sigExists = true)) ∧
    ((generate_sig pat env).result = .ok none ↔
      ((sigToolSucceeded env = true ∧ env.sigExists = false) ∨
        (env.sigmakeExists = true ∧ env.firstCallOk = false ∧ env.excLines = none))) ∧
    (sigToolSucceeded env = true →
      (generate_sig pat env).result =
        .ok (if env.sigExists then some (sig_path_of pat) else none)) ∧
    (∀ c, generate_sig pat { env with sigContents := c } = generate_sig pat env) := by
  rcases env with ⟨smk, c1, exc, c2, sg, cont⟩
  cases smk <;> cases c1 <;> cases exc <;> cases c2 <;> cases sg <;>
    simp [generate_sig, sigToolSucceeded]

/-- Claim C6 instantiated: tool succeeded on the first call and the file
exists, so the path — here "output/serde_linux.sig" — is returned. -/
theorem generate_sig_result_iff_witness :
    (generate_sig "output/serde_linux.pat"
      ⟨true, true, none, false, true, ""⟩).result =
      Except.ok (some (sig_path_of "output/serde_linux.pat")) ∧
    sig_path_of "output/serde_linux.pat" = "output/serde_linux.sig" :=
  ⟨((generate_sig_result_iff "output/serde_linux.pat"
    ⟨true, true, none, false, true, ""⟩).1).mpr ⟨rfl, rfl⟩, rfl⟩

/-- The line filter of the exclusion cleanup, as specified: keep exactly the
non-blank, non-comment-prefixed lines. -/
def keepExcLine (l : String) : Bool :=
  !(pyStripEmpty l) && !(pyStartsWith l ";")

/-- Claim C7: when the first invocation fails and an .exc file exists, the
file is rewritten in place — before the single retry (the run performs both
invocations) — to exactly the sublist of its original lines that are
non-blank and not comment-prefixed, in their original relative order. -/
theorem generate_sig_exc_cleanup (pat : String) (env : SigEnv) (lines : List String)
    (h1 : env.sigmakeExists = true) (h2 : env.firstCallOk = false)
    (h3 : env.excLines = some lines) :
    (generate_sig pat env).excFileLines = some (cleanExcLines lines) ∧
    cleanExcLines lines = lines.filter keepExcLine ∧
    List.Sublist (cleanExcLines lines) lines ∧
    (generate_sig pat env).sigmakeCalls = 2 := by
  have hfilter : ∀ ls : List String, cleanExcLines ls = ls.filter keepExcLine := by
    intro ls
    induction ls with
    | nil => rfl
    | cons l rest ih =>
      rw [show cleanExcLines (l :: rest) =
        (if keepExcLine l then l :: cleanExcLines rest else cleanExcLines rest) from rfl]
      rw [List.filter_cons]
      cases hk : keepExcLine l <;> simp [hk, ih]
  refine ⟨?_, hfilter lines, ?_, ?_⟩
  · rcases env with ⟨smk, c1, exc, c2, sg, cont⟩
    cases smk <;> cases c1 <;> cases c2 <;> simp_all [generate_sig]
  · rw [hfilter lines]
    exact List.filter_sublist lines
  · rcases env with ⟨smk, c1, exc, c2, sg, cont⟩
    cases smk <;> cases c1 <;> cases c2 <;> simp_all [generate_sig]

/-- Claim C7 instantiated: a blank line and a ";" comment are stripped, the
two real lines kept in order, before the retry. -/
theorem generate_sig_exc_cleanup_witness :
    (generate_sig "output/serde_linux.pat"
      ⟨true, false, some ["alpha 1\n", "; comment\n", "  \n", "beta 2\n"], true, true,
        ""⟩).excFileLines = some ["alpha 1\n", "beta 2\n"] ∧
    (generate_sig "output/serde_linux.pat"
      ⟨true, false, some ["alpha 1\n", "; comment\n", "  \n", "beta 2\n"], true, true,
        ""⟩).sigmakeCalls = 2 := by
  have h := generate_sig_exc_cleanup "output/serde_linux.pat"
    ⟨true, false, some ["alpha 1\n", "; comment\n", "  \n", "beta 2\n"], true, true, ""⟩
    ["alpha 1\n", "; comment\n", "  \n", "beta 2\n"] rfl rfl rfl
  refine ⟨?_, h.2.2.2⟩
  rw [h.1]
  rfl

/-- The first argument of generate_pat (src/main.py lines 123-126): a Python
value that is either a single string or a list of strings. -/
inductive PyArg where
  | pyStr : String → PyArg
  | pyList : List String → PyArg

/-- The isinstance normalization of generate_pat (src/main.py lines
125-126): a string argument becomes the one-element list holding it. -/
def normalize_paths : PyArg → List String
  | .pyStr s => [s]
  | .pyList l => l

/-- Environment for one run of generate_pat: os.path.exists queries (for
artifacts and tool binaries), the outcome of each pelf/pcf invocation keyed
by (tool path, artifact path), and whether each .pat output path exists
after its invocation. -/
structure PatEnv where
  fileExists : String → Bool
  callOk : String → String → Bool
  patExists : String → Bool

/-- Platform detection by file extension (src/main.py lines 136-148): ".a"
maps to the pelf tool and the "_linux" suffix, ".lib" to pcf and "_win",
anything else is skipped. Tool paths are os.path.join(FLAIR_DIR, tool) with
FLAIR_DIR = "flair". -/
def classifyLib (lib : String) : Option (String × String) :=
  if pyEndsWith lib ".a" then some ("flair/pelf", "_linux")
  else if pyEndsWith lib ".lib" then some ("flair/pcf", "_win")
  else none

/-- The loop of generate_pat (src/main.py lines 130-165): skip missing
artifacts and unrecognized extensions; raise FileNotFoundError when the
required tool binary is missing; otherwise invoke the tool, collecting the
.pat path when the invocation succeeds and the file exists afterwards. -/
def generate_pat_loop (env : PatEnv) (crate : String) :
    List String → Except PyExc (List String)
  | [] => .ok []
  | lib :: rest =>
    if env.fileExists lib = false then generate_pat_loop env crate rest
    else
      match classifyLib lib with
      | none => generate_pat_loop env crate rest
      | some (toolPath, suffix) =>
        if env.fileExists toolPath = false then .error (.fileNotFound toolPath)
        else
          if env.callOk toolPath lib then
            if env.patExists ("output/" ++ crate ++ suffix ++ ".pat") then
              (generate_pat_loop env crate rest).map
                (fun ps => ("output/" ++ crate ++ suffix ++ ".pat") :: ps)
            else generate_pat_loop env crate rest
          else generate_pat_loop env crate rest

/-- generate_pat (src/main.py lines 123-166). -/
def generate_pat (env : PatEnv) (input : PyArg) (crate : String) :
    Except PyExc (List String) :=
  generate_pat_loop env crate (normalize_paths input)

/-- Claim C10: a single string artifact argument is treated exactly as the
one-element list containing it: generate_pat on .pyStr s equals generate_pat
on .pyList [s] for every environment, string and crate name. -/
theorem generate_pat_string_as_singleton (env : PatEnv) (s crate : String) :
    generate_pat env (.pyStr s) crate = generate_pat env (.pyList [s]) crate :=
  rfl

/-- Whether processing this artifact reaches the missing-tool raise
(src/main.py lines 150-151): the artifact exists, its extension is
recognized, and the matching tool binary does not exist. -/
def patToolMissing (env : PatEnv) (lib : String) : Bool :=
  env.fileExists lib &&
    (match classifyLib lib with
     | some (tp, _) => !(env.fileExists tp)
     | none => false)

/-- Environment for one package of main's loop (src/main.py lines 214-239):
the download outcome and the environments of the build, pattern and
signature stages (the signature environment indexed by .pat path). -/
structure PkgEnv where
  downloadOk : Bool
  buildEnv : BuildEnv
  patEnv : PatEnv
  sigEnvOf : String → SigEnv

/-- The signature stage of main (src/main.py lines 233-236): generate_sig
for each .pat path in order; an exception propagates and discards the
collected results. -/
def sig_stage (pe : PkgEnv) : List String → Except PyExc (List (Option String))
  | [] => .ok []
  | p :: rest =>
    match (generate_sig p (pe.sigEnvOf p)).result with
    | .error e => .error e
    | .ok r => (sig_stage pe rest).map (fun rs => r :: rs)

/-- The body of main's per-package try-block (src/main.py lines 217-236):
download, build, pattern generation, then signature generation, with the
early continues for empty library and pattern lists. -/
def process_package (pe : PkgEnv) (name : String) : Except PyExc (List (Option String)) :=
  if pe.downloadOk = false then .error .httpError
  else
    if build_as_staticlib pe.buildEnv = [] then .ok []
    else
      match generate_pat pe.patEnv (.pyList (build_as_staticlib pe.buildEnv)) name with
      | .error e => .error e
      | .ok pats =>
        if pats = [] then .ok []
        else sig_stage pe pats

/-- main's loop over the crate names (src/main.py lines 214-239): each
package is processed inside its own try/except, so every name yields an
outcome and no exception escapes the loop. -/
def main_run (envOf : String → PkgEnv) (names : List String) :
    List (String × Except PyExc (List (Option String))) :=
  names.map (fun n => (n, process_package (envOf n) n))

/-- Claim C8: when generate_pat reaches an existing artifact of recognized
extension whose tool binary is missing — no earlier artifact having reached
that raise — it raises FileNotFoundError immediately (whatever artifacts
follow); the exception propagates out of the pattern stage of
process_package; and main's per-package handler confines it: in a two-name
run every name is processed with its own outcome. -/
theorem generate_pat_missing_tool_fatal (env : PatEnv) (crate : String)
    (pre rest : List String) (lib tp sfx : String)
    (hpre : ∀ x ∈ pre, patToolMissing env x = false)
    (hlib : env.fileExists lib = true)
    (hcls : classifyLib lib = some (tp, sfx))
    (htool : env.fileExists tp = false) :
    generate_pat env (.pyList (pre ++ lib :: rest)) crate =
      .error (.fileNotFound tp) ∧
    (∀ pe : PkgEnv, pe.patEnv = env → pe.downloadOk = true →
      build_as_staticlib pe.buildEnv = pre ++ lib :: rest →
      process_package pe crate = .error (.fileNotFound tp)) ∧
    (∀ envOf : String → PkgEnv, ∀ n2 : String,
      main_run envOf [crate, n2] =
        [(crate, process_package (envOf crate) crate),
         (n2, process_package (envOf n2) n2)]) := by
  have hmain : generate_pat env (.pyList (pre ++ lib :: rest)) crate =
      .error (.fileNotFound tp) := by
    unfold generate_pat normalize_paths
    induction pre with
    | nil =>
      simp only [List.nil_append, generate_pat_loop, hlib, hcls]
      simp [htool]
    | cons g gs ih =>
      have hg : patToolMissing env g = false := hpre g (by simp)
      have hgs : ∀ x ∈ gs, patToolMissing env x = false := fun x hx => hpre x (by simp [hx])
      have ih2 := ih hgs
      unfold patToolMissing at hg
      simp only [List.cons_append, generate_pat_loop]
      cases hge : env.fileExists g with
      | false => simpa [hge] using ih2
      | true =>
        rw [hge] at hg
        simp only [Bool.true_and] at hg
        cases hcg : classifyLib g with
        | none => simpa [hge, hcg] using ih2
        | some p =>
          obtain ⟨gtp, gsfx⟩ := p
          rw [hcg] at hg
          simp only [Bool.not_eq_false'] at hg
          cases hcall : env.callOk gtp g with
          | false => simpa [hge, hcg, hg, hcall] using ih2
          | true =>
            cases hpat : env.patExists ("output/" ++ crate ++ gsfx ++ ".pat") with
            | false => simpa [hge, hcg, hg, hcall, hpat] using ih2
            | true => simp [hge, hcg, hg, hcall, hpat, ih2, Except.map]
  refine ⟨hmain, ?_, ?_⟩
  · intro pe hpe hdl hbuild
    unfold process_package
    rw [hdl, hbuild, hpe, hmain]
    simp
  · intro envOf n2
    rfl

/-- A pattern environment where only the artifact exists and the pelf tool
binary does not. -/
def c8Env : PatEnv :=
  { fileExists := fun s => s == "crates/serde-1.0.0/target/release/libserde.a"
    callOk := fun _ _ => true
    patExists := fun _ => true }

/-- Claim C8 instantiated: one existing ".a" artifact, pelf missing: the
pattern stage raises FileNotFoundError for "flair/pelf". -/
theorem generate_pat_missing_tool_fatal_witness :
    classifyLib "crates/serde-1.0.0/target/release/libserde.a" =
      some ("flair/pelf", "_linux") ∧
    generate_pat c8Env
      (.pyList ["crates/serde-1.0.0/target/release/libserde.a"]) "serde" =
      .error (.fileNotFound "flair/pelf") :=
  ⟨rfl,
    (generate_pat_missing_tool_fatal c8Env "serde" [] []
      "crates/serde-1.0.0/target/release/libserde.a" "flair/pelf" "_linux"
      (by intro x hx; cases hx) rfl rfl rfl).1⟩

end RustSigGen
